import Mathlib

/-!
Shallow embedding of the chronos durable-engine core
(`src/durable-engine/src/{models,engine,database,queue}.rs`).

The Postgres store is modelled as an explicit in-memory state: a list of
task rows and an append-only list of task-event rows.  Timestamps are
integers (epoch seconds, `NOW()` is passed in as a parameter), UUIDs are
naturals, and JSON payloads are opaque strings.  A SQL transaction that
is rolled back leaves the store component of the result equal to the
input store.
-/

namespace Chronos

/-- `TaskState` from `models.rs`: the closed task-state enum. -/
inductive TaskState where
  | Queued
  | Running
  | Completed
  | Failed
  | Retrying
  | Cancelled
  | TimedOut
deriving DecidableEq, Repr

/-- The `Display` impl for `TaskState` in `models.rs` (`to_string()`), mapping
each variant to the uppercase string stored in the `state` column. -/
def TaskState.toString : TaskState → String
  | .Queued => "QUEUED"
  | .Running => "RUNNING"
  | .Completed => "COMPLETED"
  | .Failed => "FAILED"
  | .Retrying => "RETRYING"
  | .Cancelled => "CANCELLED"
  | .TimedOut => "TIMED_OUT"

/-- One row of the `tasks` table, after the `Task` struct of `database.rs`
(fourteen columns; the `state` column is a string, which is what both
`engine.rs` and `database.rs` read and write). -/
structure TaskRow where
  id : Nat
  workflow_id : Nat
  name : String
  state : String
  retry_count : Int
  max_retries : Int
  created_at : Int
  updated_at : Int
  started_at : Option Int
  completed_at : Option Int
  timeout_seconds : Int
  parameters : String
  result : Option String
  error : Option String
deriving DecidableEq, Repr

/-- One row of the `task_events` table, after the `TaskEvent` struct of
`models.rs` / the INSERT in `engine.rs`. -/
structure TaskEventRow where
  id : Nat
  task_id : Nat
  workflow_id : Nat
  event_type : String
  previous_state : Option String
  new_state : String
  timestamp : Int
  metadata : Option String
deriving DecidableEq, Repr

/-- The durable store: the two tables the engine touches. -/
structure Store where
  tasks : List TaskRow
  task_events : List TaskEventRow
deriving DecidableEq, Repr

/-- The WHERE clause of the guarded UPDATE in `TaskEngine::process_task`
(`engine.rs` lines 57-58): `id = $2 AND state = 'QUEUED'`. -/
def rowMatchesClaim (tid : Nat) (t : TaskRow) : Bool :=
  t.id == tid && t.state == TaskState.toString TaskState.Queued

/-- The SET clause of that UPDATE (`engine.rs` line 57):
`state = 'RUNNING', updated_at = NOW(), started_at = NOW()`. -/
def claimUpdate (now : Int) (t : TaskRow) : TaskRow :=
  { t with state := TaskState.toString TaskState.Running,
           updated_at := now, started_at := some now }

/-- Effect of the guarded UPDATE on a single stored row. -/
def claimStep (now : Int) (tid : Nat) (u : TaskRow) : TaskRow :=
  if rowMatchesClaim tid u then claimUpdate now u else u

/-- `TaskEngine::process_task` (`engine.rs` lines 44-96), the claim operation:
inside one transaction, run the guarded
`UPDATE tasks SET state='RUNNING', updated_at=NOW(), started_at=NOW()
 WHERE id = $2 AND state = 'QUEUED' RETURNING *` through `fetch_one`
(which fails with `RowNotFound` when zero rows match, aborting the
transaction), then INSERT one `task_events` row with
`previous_state='QUEUED', new_state='RUNNING'`, then commit.
The returned store is the committed database state; `Except.error` is the
`anyhow` error the function propagates (with the transaction rolled back,
so the store is returned unchanged). -/
def process_task (now : Int) (eid : Nat) (s : Store) (tid : Nat) :
    Store × Except String Unit :=
  match (s.tasks.filter (rowMatchesClaim tid)).head? with
  | none => (s, Except.error "Failed to update task state to RUNNING")
  | some t =>
      let ev : TaskEventRow :=
        { id := eid, task_id := t.id, workflow_id := t.workflow_id,
          event_type := "STATE_CHANGE",
          previous_state := some (TaskState.toString TaskState.Queued),
          new_state := TaskState.toString TaskState.Running,
          timestamp := now, metadata := none }
      ({ tasks := s.tasks.map (claimStep now tid),
         task_events := s.task_events ++ [ev] }, Except.ok ())

/-- `update_task_state` (`database.rs` lines 63-77):
`UPDATE tasks SET state = $1, updated_at = NOW() WHERE id = $2` — guarded
only by id, with an arbitrary caller-supplied state string; always
returns `Ok(())`. -/
def update_task_state (now : Int) (s : Store) (tid : Nat) (new_state : String) :
    Store :=
  { s with tasks := s.tasks.map (fun t =>
      if t.id == tid then { t with state := new_state, updated_at := now } else t) }

/-- The field-by-field mapping from a fetched row to the returned `Task`
struct in `get_task_by_id` (`database.rs` lines 44-59). -/
def rowToTask (r : TaskRow) : TaskRow :=
  { id := r.id, workflow_id := r.workflow_id, name := r.name, state := r.state,
    retry_count := r.retry_count, max_retries := r.max_retries,
    created_at := r.created_at, updated_at := r.updated_at,
    started_at := r.started_at, completed_at := r.completed_at,
    timeout_seconds := r.timeout_seconds, parameters := r.parameters,
    result := r.result, error := r.error }

/-- `get_task_by_id` (`database.rs` lines 33-60):
`SELECT ... FROM tasks WHERE id = $1` through `fetch_optional`, then map
the optional row field by field. -/
def get_task_by_id (s : Store) (tid : Nat) : Except String (Option TaskRow) :=
  Except.ok ((s.tasks.find? (fun t => t.id == tid)).map rowToTask)

/-- SQL comparison `started_at < cutoff` under NULL semantics: a NULL
`started_at` never satisfies the predicate. -/
def startedBefore (cutoff : Int) (t : TaskRow) : Bool :=
  match t.started_at with
  | some st => decide (st < cutoff)
  | none => false

/-- The stuck-task SELECT of `TaskEngine::run_reconciliation_loop`
(`engine.rs` lines 109-116): ids of tasks with
`state = 'RUNNING' AND started_at < NOW() - INTERVAL '1 hour'`
(a fixed 3600-second window). -/
def stuckQuery (now : Int) (s : Store) : List Nat :=
  ((s.tasks.filter (fun t =>
      t.state == TaskState.toString TaskState.Running
        && startedBefore (now - 3600) t)).map (fun t => t.id))

/-- One iteration of the body of `run_reconciliation_loop` (`engine.rs`
lines 105-124): run the stuck-task query and emit one warning per stuck
task id; no row is written and no event is inserted.  Returns the
(unchanged) store and the list of warned task ids. -/
def reconciliation_sweep (now : Int) (s : Store) : Store × List Nat :=
  (s, stuckQuery now s)

/-- The consumer settings applied in `init_kafka_consumer` (`queue.rs`
lines 44-49), as (key, value) pairs in `set` order; the two env-derived
values default as in the `unwrap_or_else` calls. -/
def init_kafka_consumer_settings (brokers_env group_env : Option String) :
    List (String × String) :=
  [("group.id", group_env.getD "chronos-durable-engine"),
   ("bootstrap.servers", brokers_env.getD "localhost:9092"),
   ("enable.auto.commit", "true"),
   ("auto.offset.reset", "earliest")]

/-- Value of a consumer setting: last write wins is irrelevant here since
each key is set once; `find?` returns the single entry. -/
def lookupSetting (cfg : List (String × String)) (k : String) : Option String :=
  (cfg.find? (fun p => p.1 == k)).map (fun p => p.2)

/-- Modelled from the spec (section 4.1 legal-edge table; the repository
code contains no transition-legality check to embed): whether the edge
from state `a` to state `b` is legal, given the task's retry counters. -/
def specLegalEdge (a b : TaskState) (retry maxr : Int) : Bool :=
  match a, b with
  | .Queued, .Running => true
  | .Queued, .Cancelled => true
  | .Running, .Completed => true
  | .Running, .Failed => true
  | .Running, .Cancelled => true
  | .Running, .TimedOut => true
  | .Failed, .Retrying => decide (retry < maxr)
  | .TimedOut, .Retrying => decide (retry < maxr)
  | .Retrying, .Queued => true
  | _, _ => false

/-- Modelled from the spec (sections 3 and 8; used only to state claims
about the `completed_at` invariant): a state string is terminal for a task
with the given retry counters. -/
def specIsTerminal (state : String) (retry maxr : Int) : Bool :=
  state == TaskState.toString TaskState.Completed
    || state == TaskState.toString TaskState.Cancelled
    || (state == TaskState.toString TaskState.Failed && decide (maxr ≤ retry))
    || (state == TaskState.toString TaskState.TimedOut && decide (maxr ≤ retry))

/-- Modelled from the spec (section 4.2 step 1; the code instead hard-codes
a one-hour window): select Running tasks whose `started_at` predates
`now` minus that task's own `timeout_seconds`. -/
def specStuckSelection (now : Int) (s : Store) : List Nat :=
  ((s.tasks.filter (fun t =>
      t.state == TaskState.toString TaskState.Running
        && startedBefore (now - t.timeout_seconds) t)).map (fun t => t.id))

/-! Concrete stores used as witnesses and counterexamples. -/

/-- A freshly created queued task (id 1, workflow 2). -/
def wTask : TaskRow :=
  { id := 1, workflow_id := 2, name := "t", state := "QUEUED",
    retry_count := 0, max_retries := 3, created_at := 1, updated_at := 1,
    started_at := none, completed_at := none, timeout_seconds := 60,
    parameters := "p", result := none, error := none }

/-- A store holding just the queued task. -/
def wStore : Store := { tasks := [wTask], task_events := [] }

/-- `wTask` as the claim UPDATE rewrites it at time 5. -/
def wTaskRunning : TaskRow :=
  { wTask with state := "RUNNING", updated_at := 5, started_at := some 5 }

/-- The audit event the claim of `wTask` inserts at time 5 with event id 9. -/
def wEvent : TaskEventRow :=
  { id := 9, task_id := 1, workflow_id := 2, event_type := "STATE_CHANGE",
    previous_state := some "QUEUED", new_state := "RUNNING",
    timestamp := 5, metadata := none }

/-- The store after a successful claim of `wTask` at time 5 with event id 9. -/
def wStoreAfter : Store := { tasks := [wTaskRunning], task_events := [wEvent] }

/-- The queued task already claimed: state RUNNING, not yet completed. -/
def runningTask : TaskRow :=
  { wTask with state := "RUNNING", updated_at := 2, started_at := some 2 }

/-- A store holding just the running task. -/
def runningStore : Store := { tasks := [runningTask], task_events := [] }

/-- A task already in the terminal state COMPLETED. -/
def completedTask : TaskRow :=
  { wTask with
      state := "COMPLETED", updated_at := 4,
      started_at := some 2, completed_at := some 4 }

/-- A store holding just the completed task. -/
def completedStore : Store := { tasks := [completedTask], task_events := [] }

/-- The completed task after `update_task_state` forced it back to QUEUED. -/
def qTask : TaskRow := { completedTask with state := "QUEUED", updated_at := 7 }

/-! Helper lemmas about the claim update. -/

/-- A row never matches the `state = 'QUEUED'` guard after the claim UPDATE
set its state to RUNNING. -/
theorem rowMatchesClaim_claimUpdate (now : Int) (tid : Nat) (u : TaskRow) :
    rowMatchesClaim tid (claimUpdate now u) = false := by
  have hs : (("RUNNING" : String) == "QUEUED") = false := by decide
  simp [rowMatchesClaim, claimUpdate, TaskState.toString, hs]

/-- After one pass of the claim UPDATE over a row, the row no longer
matches the guard. -/
theorem rowMatchesClaim_claimStep (now : Int) (tid : Nat) (u : TaskRow) :
    rowMatchesClaim tid (claimStep now tid u) = false := by
  by_cases h : rowMatchesClaim tid u
  · simp only [claimStep, if_pos h]
    exact rowMatchesClaim_claimUpdate now tid u
  · simp only [claimStep, if_neg h]
    simpa using h

/-- After the claim UPDATE ran over the whole table, the guard matches
zero rows. -/
theorem filter_claimStep_eq_nil (now : Int) (tid : Nat) (l : List TaskRow) :
    (l.map (claimStep now tid)).filter (rowMatchesClaim tid) = [] := by
  refine List.filter_eq_nil_iff.mpr ?_
  intro a ha
  rcases List.mem_map.mp ha with ⟨u, _, rfl⟩
  simp [rowMatchesClaim_claimStep]

/-- C1 (confirmed): after a successful Queued-to-Running claim of task `tid`
— which commits exactly one transition and appends exactly one TaskEvent —
a redelivered "task ready" signal for the same task matches zero rows under
the `state = 'QUEUED'` guard, commits no task-row update, appends no
TaskEvent (the store comes back unchanged) and yields the rolled-back
error outcome, so two Running claims never occur. -/
theorem process_task_duplicate_signal_noop (now₁ now₂ : Int) (eid₁ eid₂ tid : Nat)
    (s s₁ : Store) (h1 : process_task now₁ eid₁ s tid = (s₁, Except.ok ())) :
    s₁.task_events.length = s.task_events.length + 1 ∧
    process_task now₂ eid₂ s₁ tid =
      (s₁, Except.error "Failed to update task state to RUNNING") := by
  unfold process_task at h1
  cases hx : (s.tasks.filter (rowMatchesClaim tid)).head? with
  | none => simp [hx] at h1
  | some t =>
    simp only [hx, Prod.mk.injEq] at h1
    obtain ⟨hs, -⟩ := h1
    subst hs
    constructor
    · simp
    · simp [process_task, filter_claimStep_eq_nil]

/-- Witness for C1 at a concrete one-task store. -/
theorem process_task_duplicate_signal_noop_witness :
    process_task 5 9 wStore 1 = (wStoreAfter, Except.ok ()) ∧
    (wStoreAfter.task_events.length = wStore.task_events.length + 1 ∧
     process_task 6 10 wStoreAfter 1 =
       (wStoreAfter, Except.error "Failed to update task state to RUNNING")) :=
  ⟨rfl, process_task_duplicate_signal_noop 5 6 9 10 1 wStore wStoreAfter rfl⟩

/-- C2 counterexample: on a store whose only task is already RUNNING, the
claim operation's guard matches zero rows and `process_task` aborts the
transaction (store unchanged) but returns the `anyhow` error
"Failed to update task state to RUNNING" to its caller — there is no
non-error `StaleTransition` outcome anywhere in the code, so the claim
that no error/failure is propagated is false. -/
theorem stale_claim_returns_error_cex :
    process_task 5 9 runningStore 1 =
      (runningStore, Except.error "Failed to update task state to RUNNING") := rfl

/-- C2 (amended): when the conditional update guarding the claim matches
zero rows, the operation aborts the transaction, leaves the task rows and
the task_events table unchanged, and propagates an error (`RowNotFound`
wrapped as "Failed to update task state to RUNNING") to its caller. -/
theorem stale_claim_aborts_with_error (now : Int) (eid tid : Nat) (s : Store)
    (h : ∀ t ∈ s.tasks, rowMatchesClaim tid t = false) :
    process_task now eid s tid =
      (s, Except.error "Failed to update task state to RUNNING") := by
  have hf : s.tasks.filter (rowMatchesClaim tid) = [] :=
    List.filter_eq_nil_iff.mpr (by intro a ha; simp [h a ha])
  simp [process_task, hf]

/-- Witness for the amended C2 at a concrete store. -/
theorem stale_claim_aborts_with_error_witness :
    (∀ t ∈ runningStore.tasks, rowMatchesClaim 1 t = false) ∧
    process_task 3 4 runningStore 1 =
      (runningStore, Except.error "Failed to update task state to RUNNING") :=
  ⟨by decide, stale_claim_aborts_with_error 3 4 1 runningStore (by decide)⟩

/-- C3 counterexample: the edge Completed → Queued is not in the spec's
legal transition set, yet `update_task_state` happily applies it with a
bare UPDATE guarded only by id: the completed task's row is rewritten to
QUEUED and no `IllegalTransition` rejection exists (the function has no
error path and checks no states). -/
theorem update_task_state_illegal_edge_cex :
    specLegalEdge TaskState.Completed TaskState.Queued 0 3 = false ∧
    (update_task_state 7 completedStore 1 "QUEUED").tasks = [qTask] :=
  ⟨rfl, rfl⟩

/-- C3 (amended): `update_task_state` applies any caller-supplied state
string to every row with the given id through a bare, unguarded UPDATE —
whatever the row's current state, the row ends in the requested state and
no legality check or `IllegalTransition` rejection is performed. -/
theorem update_task_state_unguarded (now : Int) (s : Store) (tid : Nat) (ns : String) :
    ∀ t ∈ (update_task_state now s tid ns).tasks, t.id = tid → t.state = ns := by
  intro t ht hid
  simp only [update_task_state] at ht
  rcases List.mem_map.mp ht with ⟨u, hu, rfl⟩
  by_cases h : (u.id == tid) = true
  · rw [if_pos h]
  · rw [if_neg h] at hid
    exact absurd hid (by simpa using h)

/-- Witness for the amended C3: the forced QUEUED row is in the updated
store, has the targeted id, and carries the arbitrary new state. -/
theorem update_task_state_unguarded_witness :
    qTask ∈ (update_task_state 7 completedStore 1 "QUEUED").tasks ∧
    qTask.id = 1 ∧ qTask.state = "QUEUED" :=
  ⟨by decide, rfl,
    update_task_state_unguarded 7 completedStore 1 "QUEUED" qTask (by decide) rfl⟩

/-- A task stuck in RUNNING: started long past both its own 600-second
timeout and the fixed one-hour window, with retries left. -/
def stuckTask : TaskRow :=
  { wTask with
      state := "RUNNING", updated_at := 2800,
      started_at := some 2800, timeout_seconds := 600 }

/-- A store holding just the stuck task. -/
def stuckStore : Store := { tasks := [stuckTask], task_events := [] }

/-- A task past its own 60-second timeout but well inside the fixed
one-hour window (started 120 seconds before `now = 1000`). -/
def slowTask : TaskRow :=
  { wTask with
      state := "RUNNING", updated_at := 880,
      started_at := some 880, timeout_seconds := 60 }

/-- A store holding just the slow task. -/
def slowStore : Store := { tasks := [slowTask], task_events := [] }

/-- The empty store. -/
def emptyStore : Store := { tasks := [], task_events := [] }

/-- `claimStep` never changes `completed_at`. -/
theorem claimStep_completed_at (now : Int) (tid : Nat) (u : TaskRow) :
    (claimStep now tid u).completed_at = u.completed_at := by
  by_cases h : rowMatchesClaim tid u <;> simp [claimStep, h, claimUpdate]

/-- `claimStep` never changes `retry_count`. -/
theorem claimStep_retry_count (now : Int) (tid : Nat) (u : TaskRow) :
    (claimStep now tid u).retry_count = u.retry_count := by
  by_cases h : rowMatchesClaim tid u <;> simp [claimStep, h, claimUpdate]

/-- `claimStep` never changes `max_retries`. -/
theorem claimStep_max_retries (now : Int) (tid : Nat) (u : TaskRow) :
    (claimStep now tid u).max_retries = u.max_retries := by
  by_cases h : rowMatchesClaim tid u <;> simp [claimStep, h, claimUpdate]

/-- C4 (code bug): at `now = 10000`, the stuck task (RUNNING since
time 2800, `timeout_seconds = 600`, `retry_count = 0 < 3 = max_retries`)
is selected by the sweep's stuck-task query, yet the sweep leaves the
store bit-for-bit unchanged: the task stays RUNNING, `retry_count` is not
incremented, and no TaskEvent is appended — the loop body only logs a
warning, contradicting both the claim and the code's own doc comment
("find and fix stuck tasks"). -/
theorem reconciliation_sweep_no_fix :
    stuckTask.retry_count < stuckTask.max_retries ∧
    stuckQuery 10000 stuckStore = [1] ∧
    (reconciliation_sweep 10000 stuckStore).1 = stuckStore := by decide

/-- The SQL `started_at < cutoff` predicate holds exactly when
`started_at` is non-NULL and below the cutoff. -/
theorem startedBefore_iff (c : Int) (t : TaskRow) :
    startedBefore c t = true ↔ ∃ st, t.started_at = some st ∧ st < c := by
  unfold startedBefore
  cases h : t.started_at with
  | none => simp
  | some st => simp

/-- C5 counterexample: at `now = 1000`, the slow task (RUNNING, its own
`timeout_seconds = 60` exceeded for 60 seconds) is selected by the
spec's per-task-timeout rule but not by the code's stuck-task query,
which uses a fixed one-hour window instead of the task's timeout. -/
theorem stuck_selection_fixed_window_cex :
    specStuckSelection 1000 slowStore = [1] ∧
    stuckQuery 1000 slowStore = [] := by decide

/-- C5 (amended): the reconciliation sweep selects as stuck exactly the
tasks with state RUNNING whose `started_at` is non-NULL and predates
`now` minus a fixed 3600-second window, regardless of the task's own
`timeout_seconds`. -/
theorem stuck_selection_characterization (now : Int) (s : Store) (tid : Nat) :
    tid ∈ stuckQuery now s ↔
      ∃ t, t ∈ s.tasks ∧ t.id = tid ∧
        t.state = TaskState.toString TaskState.Running ∧
        ∃ st, t.started_at = some st ∧ st < now - 3600 := by
  unfold stuckQuery
  constructor
  · intro h
    rcases List.mem_map.mp h with ⟨t, ht, rfl⟩
    rcases List.mem_filter.mp ht with ⟨hmem, hcond⟩
    rw [Bool.and_eq_true] at hcond
    rcases hcond with ⟨hstate, hbefore⟩
    exact ⟨t, hmem, rfl, by simpa using hstate, (startedBefore_iff _ _).mp hbefore⟩
  · rintro ⟨t, hmem, rfl, hstate, hst⟩
    refine List.mem_map.mpr ⟨t, List.mem_filter.mpr ⟨hmem, ?_⟩, rfl⟩
    rw [Bool.and_eq_true]
    exact ⟨by simpa using hstate, (startedBefore_iff _ _).mpr hst⟩

/-- C8 counterexample: starting from a store satisfying the invariant
(the only task is RUNNING with `completed_at` NULL), one engine operation
— `update_task_state` to COMPLETED — yields a task whose state is
terminal while `completed_at` is still NULL: moving into a terminal state
does not set `completed_at`. -/
theorem completed_at_not_set_cex :
    ((update_task_state 7 runningStore 1
        (TaskState.toString TaskState.Completed)).tasks.map
      (fun t => (specIsTerminal t.state t.retry_count t.max_retries,
                 t.completed_at))) = [(true, none)] := by decide

/-- C8 (amended): no engine operation ever writes `completed_at` — the
claim operation, the bare state update and the reconciliation sweep all
leave every row's `completed_at` exactly as it was; in particular an
operation that moves a task into a terminal state does not set it, so
the completed-iff-terminal invariant is not maintained by the code. -/
theorem completed_at_never_modified (now : Int) (eid tid : Nat) (s : Store) (ns : String) :
    (process_task now eid s tid).1.tasks.map TaskRow.completed_at
        = s.tasks.map TaskRow.completed_at ∧
    (update_task_state now s tid ns).tasks.map TaskRow.completed_at
        = s.tasks.map TaskRow.completed_at ∧
    (reconciliation_sweep now s).1.tasks.map TaskRow.completed_at
        = s.tasks.map TaskRow.completed_at := by
  refine ⟨?_, ?_, rfl⟩
  · unfold process_task
    cases hx : (s.tasks.filter (rowMatchesClaim tid)).head? with
    | none => rfl
    | some t =>
      show (s.tasks.map (claimStep now tid)).map TaskRow.completed_at
          = s.tasks.map TaskRow.completed_at
      rw [List.map_map]
      exact List.map_congr_left fun a _ => claimStep_completed_at now tid a
  · unfold update_task_state
    show (s.tasks.map _).map TaskRow.completed_at = s.tasks.map TaskRow.completed_at
    rw [List.map_map]
    refine List.map_congr_left fun a _ => ?_
    by_cases h : (a.id == tid) = true <;> simp [Function.comp, h]

/-- C9 counterexample: the consumer settings applied in
`init_kafka_consumer` (with both environment variables unset, taking the
defaults) contain `enable.auto.commit = "true"` — librdkafka automatic
periodic offset commit — so the consumer is not configured for
commit-after-process. -/
theorem kafka_auto_commit_cex :
    lookupSetting (init_kafka_consumer_settings none none)
      "enable.auto.commit" = some "true" := rfl

/-- C9 (amended): whatever the `KAFKA_BROKERS` and `KAFKA_GROUP_ID`
environment values, the consumer is created with
`enable.auto.commit = "true"`, i.e. automatic offset commit, not
commit-after-process; offsets may therefore be committed independently
of (and before) the engine's durable recording of a transition
attempt. -/
theorem kafka_auto_commit_enabled (brokers_env group_env : Option String) :
    lookupSetting (init_kafka_consumer_settings brokers_env group_env)
      "enable.auto.commit" = some "true" := rfl

/-- `get_task_by_id`'s per-field row mapping is the identity. -/
theorem rowToTask_eq (r : TaskRow) : rowToTask r = r := rfl

/-- C10 (confirmed): `get_task_by_id` reports an absent task id as
`Ok(None)`, not as an error, and when a row with the id exists it returns
`Ok(Some task)` with all fourteen stored fields mapped unchanged (the
field-by-field mapping is the identity). -/
theorem get_task_by_id_spec (s : Store) (tid : Nat) :
    ((∀ t ∈ s.tasks, t.id ≠ tid) → get_task_by_id s tid = Except.ok none) ∧
    (∀ t, s.tasks.find? (fun u => u.id == tid) = some t →
        get_task_by_id s tid = Except.ok (some t)) := by
  constructor
  · intro h
    unfold get_task_by_id
    rw [List.find?_eq_none.mpr ?_]
    · rfl
    · intro x hx
      simp [h x hx]
  · intro t ht
    unfold get_task_by_id
    rw [ht]
    show Except.ok (some (rowToTask t)) = Except.ok (some t)
    rw [rowToTask_eq]

/-- Witness for C10 on the empty store and on a one-task store. -/
theorem get_task_by_id_spec_witness :
    get_task_by_id emptyStore 5 = Except.ok none ∧
    get_task_by_id wStore 1 = Except.ok (some wTask) :=
  ⟨(get_task_by_id_spec emptyStore 5).1 (by decide),
   (get_task_by_id_spec wStore 1).2 wTask rfl⟩

/-- C6 (confirmed): a successful Queued-to-Running claim appends, in the
same committed transaction, exactly one TaskEvent carrying
`previous_state = QUEUED` and `new_state = RUNNING`, and rewrites the
claimed row(s) by setting `state = RUNNING` and `started_at` and
`updated_at` to the current time while leaving every other field —
retry_count, max_retries, timeout_seconds, created_at, completed_at,
parameters, result, error (and id, workflow_id, name) — unchanged;
unclaimed rows are untouched. -/
theorem claim_success_frame (now : Int) (eid tid : Nat) (s : Store) (t : TaskRow)
    (hx : (s.tasks.filter (rowMatchesClaim tid)).head? = some t) :
    (process_task now eid s tid).2 = Except.ok () ∧
    (process_task now eid s tid).1.task_events =
      s.task_events ++
        [{ id := eid, task_id := t.id, workflow_id := t.workflow_id,
           event_type := "STATE_CHANGE",
           previous_state := some (TaskState.toString TaskState.Queued),
           new_state := TaskState.toString TaskState.Running,
           timestamp := now, metadata := none }] ∧
    List.Forall₂ (fun u v =>
        v.id = u.id ∧ v.workflow_id = u.workflow_id ∧ v.name = u.name ∧
        v.retry_count = u.retry_count ∧ v.max_retries = u.max_retries ∧
        v.timeout_seconds = u.timeout_seconds ∧ v.created_at = u.created_at ∧
        v.completed_at = u.completed_at ∧ v.parameters = u.parameters ∧
        v.result = u.result ∧ v.error = u.error ∧
        (rowMatchesClaim tid u = true →
          v.state = TaskState.toString TaskState.Running ∧
          v.updated_at = now ∧ v.started_at = some now) ∧
        (rowMatchesClaim tid u = false → v = u))
      s.tasks (process_task now eid s tid).1.tasks := by
  have hp : process_task now eid s tid =
      ({ tasks := s.tasks.map (claimStep now tid),
         task_events := s.task_events ++
           [{ id := eid, task_id := t.id, workflow_id := t.workflow_id,
              event_type := "STATE_CHANGE",
              previous_state := some (TaskState.toString TaskState.Queued),
              new_state := TaskState.toString TaskState.Running,
              timestamp := now, metadata := none }] }, Except.ok ()) := by
    unfold process_task
    rw [hx]
  rw [hp]
  refine ⟨rfl, rfl, ?_⟩
  show List.Forall₂ _ s.tasks (s.tasks.map (claimStep now tid))
  rw [List.forall₂_map_right_iff]
  refine List.forall₂_same.mpr fun u hu => ?_
  by_cases h : rowMatchesClaim tid u
  · simp [claimStep, h, claimUpdate]
  · simp [claimStep, h]

/-- Witness for C6: the one-task store, claimed at time 5, event id 9. -/
theorem claim_success_frame_witness :
    (wStore.tasks.filter (rowMatchesClaim 1)).head? = some wTask ∧
    ((process_task 5 9 wStore 1).2 = Except.ok () ∧
     (process_task 5 9 wStore 1).1.task_events =
       wStore.task_events ++
         [{ id := 9, task_id := wTask.id, workflow_id := wTask.workflow_id,
            event_type := "STATE_CHANGE",
            previous_state := some (TaskState.toString TaskState.Queued),
            new_state := TaskState.toString TaskState.Running,
            timestamp := 5, metadata := none }] ∧
     List.Forall₂ (fun u v =>
        v.id = u.id ∧ v.workflow_id = u.workflow_id ∧ v.name = u.name ∧
        v.retry_count = u.retry_count ∧ v.max_retries = u.max_retries ∧
        v.timeout_seconds = u.timeout_seconds ∧ v.created_at = u.created_at ∧
        v.completed_at = u.completed_at ∧ v.parameters = u.parameters ∧
        v.result = u.result ∧ v.error = u.error ∧
        (rowMatchesClaim 1 u = true →
          v.state = TaskState.toString TaskState.Running ∧
          v.updated_at = 5 ∧ v.started_at = some 5) ∧
        (rowMatchesClaim 1 u = false → v = u))
       wStore.tasks (process_task 5 9 wStore 1).1.tasks) :=
  ⟨rfl, claim_success_frame 5 9 1 wStore wTask rfl⟩

/-- C7 (confirmed): none of the engine's operations — the claim operation,
the bare state update, or the reconciliation sweep — modifies
`retry_count` or `max_retries`, so `retry_count ≤ max_retries` holds for
every task after each operation given that it held before. -/
theorem retry_le_max_preserved (now : Int) (eid tid : Nat) (s : Store) (ns : String)
    (hinv : ∀ t ∈ s.tasks, t.retry_count ≤ t.max_retries) :
    (∀ t ∈ (process_task now eid s tid).1.tasks, t.retry_count ≤ t.max_retries) ∧
    (∀ t ∈ (update_task_state now s tid ns).tasks, t.retry_count ≤ t.max_retries) ∧
    (∀ t ∈ (reconciliation_sweep now s).1.tasks, t.retry_count ≤ t.max_retries) := by
  refine ⟨?_, ?_, hinv⟩
  · unfold process_task
    cases hx : (s.tasks.filter (rowMatchesClaim tid)).head? with
    | none => exact hinv
    | some t =>
      intro a ha
      rcases List.mem_map.mp ha with ⟨u, hu, rfl⟩
      rw [claimStep_retry_count, claimStep_max_retries]
      exact hinv u hu
  · intro a ha
    simp only [update_task_state] at ha
    rcases List.mem_map.mp ha with ⟨u, hu, rfl⟩
    by_cases h : (u.id == tid) = true
    · rw [if_pos h]
      exact hinv u hu
    · rw [if_neg h]
      exact hinv u hu

/-- Witness for C7 on the one-task store. -/
theorem retry_le_max_preserved_witness :
    (∀ t ∈ wStore.tasks, t.retry_count ≤ t.max_retries) ∧
    ((∀ t ∈ (process_task 5 9 wStore 1).1.tasks, t.retry_count ≤ t.max_retries) ∧
     (∀ t ∈ (update_task_state 5 wStore 1 "CANCELLED").tasks,
        t.retry_count ≤ t.max_retries) ∧
     (∀ t ∈ (reconciliation_sweep 5 wStore).1.tasks, t.retry_count ≤ t.max_retries)) :=
  ⟨by decide, retry_le_max_preserved 5 9 1 wStore "CANCELLED" (by decide)⟩

end Chronos
